import Mathlib

/-!
Verification development for the `vk-wrapper` process-supervision subsystem
(`src/server-manager.ts`).  The TypeScript source is shallowly embedded:

* JS strings are Lean `String`s manipulated through their `List Char` data;
* the readiness regex `https?://(?:localhost|127\.0\.0\.1|0\.0\.0\.0):\d+`
  is embedded as an executable leftmost matcher with greedy `\d+`;
* the `ServerManager` instance state plus the per-call `startServer`
  promise are one record, and the asynchronous callbacks (`stdout`/`stderr`
  data, `error`, `exit`, startup timeout) are a step function over an
  explicit event alphabet;
* the file system seen by `resolveProtoShim` is an abstract record of
  `existsSync` / `readdirSync` / `statSync(...).isDirectory()` answers;
* process-tree signalling (`killProcessTree`) is a function from an
  abstract process table to the set of signalled pids.
-/

namespace VK

/-! ### Character-list string utilities (JS `includes`, `slice`, `replace`) -/

/-- `chStarts l p` : the list `p` is an initial segment of `l`
(JS `String.prototype.startsWith` on the underlying code units). -/
def chStarts : List Char → List Char → Bool
  | _, [] => true
  | [], _ :: _ => false
  | c :: cs, d :: ds => c == d && chStarts cs ds

/-- `chHasSub l p` : `p` occurs contiguously somewhere in `l`
(JS `String.prototype.includes`). -/
def chHasSub (l p : List Char) : Bool :=
  match l with
  | [] => chStarts [] p
  | _ :: cs => chStarts l p || chHasSub cs p

/-- Drop the pattern `p` off the front of `l`, or fail
(helper for literal pieces of the readiness regex). -/
def chStrip : List Char → List Char → Option (List Char)
  | l, [] => some l
  | [], _ :: _ => none
  | c :: cs, d :: ds => if c == d then chStrip cs ds else none

/-- First occurrence of `pat` in `l` replaced by `rep`; `l` unchanged when
`pat` does not occur (JS `String.prototype.replace` with string arguments,
which replaces only the first occurrence). -/
def chReplaceFirst (l pat rep : List Char) : List Char :=
  match l with
  | [] => if chStarts [] pat then rep else []
  | c :: cs =>
    if chStarts l pat then rep ++ l.drop pat.length
    else c :: chReplaceFirst cs pat rep

/-- `strHasSub s pat` : JS `s.includes(pat)`. -/
def strHasSub (s pat : String) : Bool :=
  chHasSub s.data pat.data

/-- JS `s.slice(0, n)` (here used with `n = 500` to truncate stderr). -/
def strTake (s : String) (n : Nat) : String :=
  String.mk (s.data.take n)

/-- `path.dirname` on a POSIX-style path: everything before the last
slash (used for `path.dirname(nodePath)` in `startServer`). -/
def strDirname (s : String) : String :=
  let rev := s.data.reverse
  match rev.dropWhile (fun c => c != '/') with
  | [] => "."
  | _ :: rest => if rest = [] then "/" else String.mk rest.reverse

/-! ### The readiness URL matcher

Embeds `URL_REGEX = /https?:\/\/(?:localhost|127\.0\.0\.1|0\.0\.0\.0):\d+/`
with JS `String.prototype.match` semantics: leftmost match wins, the
alternation tries its branches in order, and `\d+` is greedy. -/

/-- Greedily split off the leading run of decimal digits. -/
def chTakeDigits : List Char → (List Char × List Char)
  | [] => ([], [])
  | c :: cs =>
    if c.isDigit then
      let (ds, rest) := chTakeDigits cs
      (c :: ds, rest)
    else ([], c :: cs)

/-- Match one branch of the host alternation
`localhost|127\.0\.0\.1|0\.0\.0\.0` at the front of `cs`, in the order the
regex lists them, returning the matched host and the remainder. -/
def matchHost (cs : List Char) : Option (List Char × List Char) :=
  match chStrip cs "localhost".data with
  | some rest => some ("localhost".data, rest)
  | none =>
    match chStrip cs "127.0.0.1".data with
    | some rest => some ("127.0.0.1".data, rest)
    | none =>
      match chStrip cs "0.0.0.0".data with
      | some rest => some ("0.0.0.0".data, rest)
      | none => none

/-- Try to match the whole readiness regex anchored at the front of `cs`;
returns the matched code units.  `https?` first tries consuming an `s`
(the two branches are disjoint because `s ≠ :`), then `://`, the host
alternation, `:`, and a non-empty greedy digit run. -/
def matchUrlAt (cs : List Char) : Option (List Char) := do
  let afterHttp ← chStrip cs "http".data
  let (sPart, afterScheme) :=
    match afterHttp with
    | 's' :: rest => (['s'], rest)
    | rest => (([] : List Char), rest)
  let afterSep ← chStrip afterScheme "://".data
  let (host, afterHost) ← matchHost afterSep
  let afterColon ← chStrip afterHost ":".data
  let (digits, _) := chTakeDigits afterColon
  if digits = [] then none
  else
    some ("http".data ++ sPart ++ "://".data ++ host ++ ":".data ++ digits)

/-- Leftmost match of the readiness regex in `l`
(JS `l.match(URL_REGEX)?.[0]`). -/
def chFindUrl : List Char → Option (List Char)
  | [] => matchUrlAt []
  | c :: cs =>
    match matchUrlAt (c :: cs) with
    | some m => some m
    | none => chFindUrl cs

/-- `output.match(this.URL_REGEX)` restricted to the first matched
substring (`match[0]`), which is all the data handlers use. -/
def jsMatchUrl (s : String) : Option String :=
  (chFindUrl s.data).map String.mk

/-- The normalisation applied after a match:
`if (url.includes('0.0.0.0')) url = url.replace('0.0.0.0', 'localhost')`. -/
def normalizeUrl (u : String) : String :=
  if strHasSub u "0.0.0.0" then
    String.mk (chReplaceFirst u.data "0.0.0.0".data "localhost".data)
  else u

end VK

namespace VK

/-! ### Supervisor state and `startServer` event machine

`SrvState` packs the `ServerManager` instance fields that the claims
observe (`serverProcess`, `serverUrl`) together with the state local to
one `startServer` call: the accumulated `stderrOutput` buffer, the
call's promise, and whether the startup timer is still armed.
`resolveCalls` is a ghost counter incremented exactly where the source
invokes `resolve(...)` from a data handler, so "resolves at most once"
is a statement about the count of `resolve` invocations, not merely
about the (single-settlement) promise. -/

/-- A child-process handle: its pid and the `killed` flag that
`isRunning` inspects. -/
structure Proc where
  pid : Nat
  killed : Bool
deriving DecidableEq

/-- The settlement state of one `startServer` promise.  JS promises
settle at most once; `settleResolve`/`settleReject` encode that further
`resolve`/`reject` calls are no-ops. -/
inductive PromiseSt where
  | pending
  | resolvedWith (url : String)
  | rejectedWith (msg : String)
deriving DecidableEq

/-- `resolve u` on a promise: only a pending promise settles. -/
def settleResolve : PromiseSt → String → PromiseSt
  | .pending, u => .resolvedWith u
  | p, _ => p

/-- `reject e` on a promise: only a pending promise settles. -/
def settleReject : PromiseSt → String → PromiseSt
  | .pending, m => .rejectedWith m
  | p, _ => p

/-- Supervisor state during one `startServer` call (see section header). -/
structure SrvState where
  serverProcess : Option Proc
  serverUrl : Option String
  stderrOutput : String
  promise : PromiseSt
  timeoutActive : Bool
  resolveCalls : Nat
deriving DecidableEq

/-- `isRunning(): this.serverProcess !== null && !this.serverProcess.killed`. -/
def isRunning (st : SrvState) : Bool :=
  match st.serverProcess with
  | none => false
  | some p => !p.killed

/-- `getUrl(): this.serverUrl`. -/
def getUrl (st : SrvState) : Option String :=
  st.serverUrl

/-- State right after `this.serverProcess = spawn(...)` inside
`startServer`: fresh pending promise, armed 60 s timer, empty stderr
buffer; the instance field `serverUrl` is NOT reset by the source, so it
carries over from `st`. -/
def spawnState (st : SrvState) (p : Proc) : SrvState :=
  { serverProcess := some p
    serverUrl := st.serverUrl
    stderrOutput := ""
    promise := .pending
    timeoutActive := true
    resolveCalls := 0 }

/-- A `startServer` call made from the `Idle` state required by the
spec's precondition: no process handle and no recorded address. -/
def initState (p : Proc) : SrvState :=
  spawnState { serverProcess := none, serverUrl := none, stderrOutput := ""
               promise := .pending, timeoutActive := false, resolveCalls := 0 } p

/-- The shared body of the two data handlers: match the readiness regex
against the chunk; on a match with no recorded URL, record the
normalised URL, clear the startup timer and resolve. -/
def scanChunk (st : SrvState) (chunk : String) : SrvState :=
  match jsMatchUrl chunk with
  | some m =>
    if st.serverUrl.isNone then
      let u := normalizeUrl m
      { st with serverUrl := some u
                timeoutActive := false
                promise := settleResolve st.promise u
                resolveCalls := st.resolveCalls + 1 }
    else st
  | none => st

/-- The `stdout` data handler. -/
def onStdout (st : SrvState) (chunk : String) : SrvState :=
  scanChunk st chunk

/-- The `stderr` data handler: `stderrOutput += output` happens before
the URL scan. -/
def onStderr (st : SrvState) (chunk : String) : SrvState :=
  scanChunk { st with stderrOutput := st.stderrOutput ++ chunk } chunk

/-- The `error` event handler: clears the timer and rejects, but does
NOT touch `serverProcess`. -/
def onError (st : SrvState) (msg : String) : SrvState :=
  { st with timeoutActive := false
            promise := settleReject st.promise ("Failed to start server: " ++ msg) }

/-- JS string interpolation of the exit code: `null` renders as "null". -/
def renderCode : Option Int → String
  | some c => toString c
  | none => "null"

/-- The diagnostic message built by the `exit` handler when the process
dies before a readiness match (lines 262–273 of the source): generic
code message, stderr appended truncated to 500 units when non-empty,
then overridden by the address-in-use classification, else by the
not-found classification. -/
def earlyExitMessage (code : Option Int) (stderrOutput : String) : String :=
  let base := "Server exited with code " ++ renderCode code ++ " before becoming ready"
  let generic :=
    if stderrOutput ≠ "" then
      base ++ "\n\nError output:\n" ++ strTake stderrOutput 500
    else base
  if strHasSub stderrOutput "AddrInUse" || strHasSub stderrOutput "Address already in use" then
    "Port is already in use.\n\nAnother instance of vibe-kanban may be running.\nPlease close it and try again."
  else if strHasSub stderrOutput "ENOENT" || strHasSub stderrOutput "not found" then
    "Failed to find vibe-kanban.\n\nPlease ensure you have internet access."
  else generic

/-- The `exit` event handler: reject with the classified message when no
URL was recorded, then drop the process handle.  `serverUrl` is NOT
cleared here. -/
def onExit (st : SrvState) (code : Option Int) : SrvState :=
  let st1 :=
    if st.serverUrl.isNone then
      { st with timeoutActive := false
                promise := settleReject st.promise (earlyExitMessage code st.stderrOutput) }
    else st
  { st1 with serverProcess := none }

/-- Which of the two race outcomes finishes a non-immediate `killServer`
call: the child's `exit` event, or the 3-second force timer. -/
inductive KillPath where
  | exitBeforeGrace
  | graceTimeout
deriving DecidableEq

/-- The settlement of a `killServer` promise. -/
inductive KillOutcome where
  | resolvedOk
  | rejectedErr (msg : String)
deriving DecidableEq

/-- Result of one `killServer` call: the state it leaves behind, how its
promise settled, and whether it took the immediate no-active-process
branch. -/
structure KillResult where
  state : SrvState
  outcome : KillOutcome
  immediate : Bool
deriving DecidableEq

/-- `killServer`: with no live process, clear both fields and resolve at
once; otherwise both race outcomes run `killProcessTree`, clear
`serverProcess` and `serverUrl`, and resolve.  No branch rejects. -/
def killServer (st : SrvState) (kp : KillPath) : KillResult :=
  match st.serverProcess with
  | none =>
    { state := { st with serverProcess := none, serverUrl := none }
      outcome := .resolvedOk, immediate := true }
  | some p =>
    if p.killed then
      { state := { st with serverProcess := none, serverUrl := none }
        outcome := .resolvedOk, immediate := true }
    else
      match kp with
      | .exitBeforeGrace =>
        { state := { st with serverProcess := none, serverUrl := none }
          outcome := .resolvedOk, immediate := false }
      | .graceTimeout =>
        { state := { st with serverProcess := none, serverUrl := none }
          outcome := .resolvedOk, immediate := false }

/-- The startup-timeout handler: only fires while the timer is armed;
it invokes `killServer` (whose completion takes path `kp`) and rejects
with the fixed timeout message. -/
def onTimeout (st : SrvState) (kp : KillPath) : SrvState :=
  if st.timeoutActive then
    let st1 := (killServer st kp).state
    { st1 with
        promise := settleReject st.promise
          "Server startup timeout. Please check your internet connection and try again."
        timeoutActive := false }
  else st

/-- The event alphabet of one `startServer` call. -/
inductive Ev where
  | stdoutData (chunk : String)
  | stderrData (chunk : String)
  | errorEvt (msg : String)
  | exitEvt (code : Option Int)
  | timeoutFired (kp : KillPath)

/-- Dispatch one asynchronous callback. -/
def step (st : SrvState) : Ev → SrvState
  | .stdoutData c => onStdout st c
  | .stderrData c => onStderr st c
  | .errorEvt m => onError st m
  | .exitEvt c => onExit st c
  | .timeoutFired kp => onTimeout st kp

/-- Run a sequence of callbacks. -/
def runEvs (st : SrvState) (evs : List Ev) : SrvState :=
  evs.foldl step st

/-- The resolution invariant: while no URL is recorded `resolve` has
never run, a recorded URL implies a disarmed startup timer, and
`resolve` has run at most once. -/
def StInv (st : SrvState) : Prop :=
  (st.serverUrl = none → st.resolveCalls = 0)
  ∧ (st.serverUrl.isSome → st.timeoutActive = false)
  ∧ st.resolveCalls ≤ 1

end VK

namespace VK

/-! ### PathResolver: `resolveProtoShim` and `getPaths`

The file system is abstracted to the three read-only questions the
source asks: `fs.existsSync`, `fs.readdirSync`, and
`fs.statSync(p).isDirectory()`.  `path.join` is modelled as
`"/"`-concatenation (the source only joins plain segments). -/

/-- Abstract read-only view of the file system. -/
structure FSView where
  pathExists : String → Bool
  readdir : String → List String
  isDir : String → Bool

/-- The directory-name test `/^\d+\.\d+/.test(dir)`: one or more digits,
a dot, one or more digits, anchored at the start. -/
def versionLike (s : String) : Bool :=
  let (d1, r1) := chTakeDigits s.data
  if d1 = [] then false
  else
    match r1 with
    | '.' :: r2 =>
      let (d2, _) := chTakeDigits r2
      !d2.isEmpty
    | _ => false

/-- Digit run to its decimal value. -/
def digitsToNat (ds : List Char) : Nat :=
  ds.foldl (fun a c => a * 10 + (c.toNat - '0'.toNat)) 0

/-- `parseInt(n, 10) || 0`: skip leading whitespace, optional sign,
read the leading digit run; no digits gives `NaN`, which `|| 0` turns
into `0` (and a parsed `0` stays `0`). -/
def jsParseIntOr0 (s : String) : Int :=
  let cs := s.data.dropWhile (fun c => c == ' ' || c == '\t' || c == '\n' || c == '\r')
  match cs with
  | '-' :: rest =>
    let (ds, _) := chTakeDigits rest
    if ds = [] then 0 else -(digitsToNat ds : Int)
  | '+' :: rest =>
    let (ds, _) := chTakeDigits rest
    if ds = [] then 0 else (digitsToNat ds : Int)
  | rest =>
    let (ds, _) := chTakeDigits rest
    if ds = [] then 0 else (digitsToNat ds : Int)

/-- Split a character list on a separator character (JS
`String.prototype.split` with a single-character separator). -/
def chSplitOn (sep : Char) : List Char → List (List Char)
  | [] => [[]]
  | c :: cs =>
    if c == sep then [] :: chSplitOn sep cs
    else
      match chSplitOn sep cs with
      | [] => [[c]]
      | g :: gs => (c :: g) :: gs

/-- `a.split('.').map(n => parseInt(n, 10) || 0)`. -/
def versionParts (s : String) : List Int :=
  (chSplitOn '.' s.data).map (fun g => jsParseIntOr0 (String.mk g))

/-- The comparator loop once `partsA` is exhausted: indices read as
`partsA[i] || 0 = 0`, so the difference at every index is `b - 0`. -/
def cmpTailB : List Int → Int
  | [] => 0
  | b :: bs => if b - 0 ≠ 0 then b - 0 else cmpTailB bs

/-- The comparator loop once `partsB` is exhausted: differences `0 - a`. -/
def cmpTailA : List Int → Int
  | [] => 0
  | a :: xs => if 0 - a ≠ 0 then 0 - a else cmpTailA xs

/-- The comparator loop: first index where the components differ decides,
missing components read as `0`; the returned value is
`(partsB[i] || 0) - (partsA[i] || 0)`. -/
def cmpParts : List Int → List Int → Int
  | [], bs => cmpTailB bs
  | a :: xs, [] => if 0 - a ≠ 0 then 0 - a else cmpTailA xs
  | a :: xs, b :: bs => if b - a ≠ 0 then b - a else cmpParts xs bs

/-- The version comparator passed to `versions.sort`. -/
def cmpVersions (a b : String) : Int :=
  cmpParts (versionParts a) (versionParts b)

/-- Stable insertion relative to the comparator: an element is placed
before the first list member it does not compare after. -/
def insertByCmp (x : String) : List String → List String
  | [] => [x]
  | y :: ys => if cmpVersions x y ≤ 0 then x :: y :: ys else y :: insertByCmp x ys

/-- `versions.sort(comparator)`: a stable comparator sort (ECMAScript
`Array.prototype.sort` is stable and, for a consistent comparator,
produces a comparator-sorted array). -/
def sortVersionsDesc (vs : List String) : List String :=
  vs.foldr insertByCmp []

/-- `toolName`: `npx` ships with node, so it is looked up in the `node`
tool directory. -/
def protoToolName (binaryName : String) : String :=
  if binaryName = "npx" then "node" else binaryName

/-- `protoToolsDir = path.join(homeDir, '.proto', 'tools', toolName)`. -/
def protoToolsDirOf (homeDir binaryName : String) : String :=
  homeDir ++ "/.proto/tools/" ++ protoToolName binaryName

/-- `versions`: the entries of the tool directory that are directories
and match `/^\d+\.\d+/`. -/
def protoVersions (fsv : FSView) (homeDir binaryName : String) : List String :=
  (fsv.readdir (protoToolsDirOf homeDir binaryName)).filter
    (fun dir => fsv.isDir (protoToolsDirOf homeDir binaryName ++ "/" ++ dir) && versionLike dir)

/-- `actualBinaryPath`: the candidate binary under the highest version
(`versions[0]` after the descending sort). -/
def protoCandidate (fsv : FSView) (homeDir binaryName : String) : String :=
  protoToolsDirOf homeDir binaryName ++ "/"
    ++ (sortVersionsDesc (protoVersions fsv homeDir binaryName)).headD ""
    ++ "/bin/" ++ binaryName

/-- `resolveProtoShim(shimPath, binaryName)` from the source, with the
file system and `os.homedir()` passed explicitly; the local constants
`toolName`, `protoToolsDir`, `versions`, `actualBinaryPath` of the
source are the named definitions above. -/
def resolveProtoShim (fsv : FSView) (homeDir shimPath binaryName : String) : String :=
  if !(strHasSub shimPath ".proto/shims") then shimPath
  else
    if !(fsv.pathExists (protoToolsDirOf homeDir binaryName)) then shimPath
    else
      if (protoVersions fsv homeDir binaryName).isEmpty then shimPath
      else
        if fsv.pathExists (protoCandidate fsv homeDir binaryName) then
          protoCandidate fsv homeDir binaryName
        else shimPath

/-- `getPaths()`: the two configured paths (absent or empty string are
both falsy in `if (!nodePath || !npxPath)`), then shim resolution on
both, `npx` looked up in the `node` tool directory. -/
def getPaths (fsv : FSView) (homeDir : String) (nodePathC npxPathC : Option String) :
    Except String (String × String) :=
  match nodePathC, npxPathC with
  | some np, some xp =>
    if np = "" || xp = "" then .error "PATHS_NOT_CONFIGURED"
    else .ok (resolveProtoShim fsv homeDir np "node", resolveProtoShim fsv homeDir xp "npx")
  | _, _ => .error "PATHS_NOT_CONFIGURED"

/-! ### Environment construction in `startServer` (lines 188–197) -/

/-- Environments as partial maps from variable names to values. -/
abbrev EnvF := String → Option String

/-- `shellEnv.PATH || '/usr/local/bin:/usr/bin:/bin'` — JS `||` also
replaces an empty string. -/
def shellPathOrDefault (v : Option String) : String :=
  match v with
  | some s => if s = "" then "/usr/local/bin:/usr/bin:/bin" else s
  | none => "/usr/local/bin:/usr/bin:/bin"

/-- The object literal
`{ ...shellEnv, PATH: nodeDir + ':' + (shellEnv.PATH || default),
   BROWSER: 'none', ...(port ? { PORT: String(port) } : {}) }`:
explicit keys override the spread; the `PORT` entry is only spread in
when `port` is truthy, i.e. present and non-zero. -/
def buildEnv (shellEnv : EnvF) (nodeDir : String) (port : Option Nat) : EnvF :=
  fun k =>
    if k = "PATH" then some (nodeDir ++ ":" ++ shellPathOrDefault (shellEnv "PATH"))
    else if k = "BROWSER" then some "none"
    else if k = "PORT" then
      match port with
      | some p => if p ≠ 0 then some (toString p) else shellEnv "PORT"
      | none => shellEnv "PORT"
    else shellEnv k

/-- The prelude of a `startServer` call: `getPaths()` runs before any
promise or process is created, so its `PATHS_NOT_CONFIGURED` throw
leaves the supervisor state exactly as it was; on success the call
reaches the spawn and continues as the event machine's `spawnState`.
Returns the state together with the thrown message, if any. -/
def startAttempt (fsv : FSView) (homeDir : String) (npC xpC : Option String)
    (st : SrvState) (p : Proc) : SrvState × Option String :=
  match getPaths fsv homeDir npC xpC with
  | .error e => (st, some e)
  | .ok _ => (spawnState st p, none)

/-- The environment `startServer` passes to `spawn`, composed with
`getPaths` exactly as lines 181–197 do (`nodeDir = path.dirname(nodePath)`
of the resolved node path). -/
def startServerEnv (fsv : FSView) (homeDir : String) (nodePathC npxPathC : Option String)
    (shellEnv : EnvF) (port : Option Nat) : Option EnvF :=
  match getPaths fsv homeDir nodePathC npxPathC with
  | .error _ => none
  | .ok (nodePath, _) => some (buildEnv shellEnv (strDirname nodePath) port)

end VK

namespace VK

/-! ### `getShellEnvironment` (lines 24–83)

The spawned login shell is abstracted to its observable outcome: the
`close` event with exit code 0 and the accumulated stdout, a `close`
with a non-zero code, the `error` event, or the 5-second timeout.  The
source's `console.log` calls are ignored; every branch calls `resolve`,
never `reject`. -/

/-- Observable outcome of the `spawn(shell, ['-ilc', 'env'])` child. -/
inductive ShellOutcome where
  | closedZero (stdout : String)
  | closedNonZero (code : Int)
  | spawnErrored (msg : String)
  | timedOut
deriving DecidableEq

/-- Settlement of one `getShellEnvironment` promise. -/
inductive EnvSettle where
  | resolvedEnv (e : List (String × String))
  | rejectedEnv (msg : String)
deriving DecidableEq

/-- Position of the first `'='` (JS `line.indexOf('=')`), if any. -/
def chIndexOfEq : List Char → Option Nat
  | [] => none
  | c :: cs =>
    if c == '=' then some 0
    else (chIndexOfEq cs).map (· + 1)

/-- One line of `env` output: `idx = line.indexOf('='); if (idx > 0)`
take `line.slice(0, idx)` and `line.slice(idx + 1)`. -/
def lineToPair (line : String) : Option (String × String) :=
  match chIndexOfEq line.data with
  | some idx =>
    if 0 < idx then
      some (String.mk (line.data.take idx), String.mk (line.data.drop (idx + 1)))
    else none
  | none => none

/-- `stdout.split('\n')` folded through the `env[key] = value` loop;
the object is kept as the assignment list, later assignments last. -/
def parseEnvOutput (s : String) : List (String × String) :=
  (chSplitOn '\n' s.data).foldl
    (fun acc g =>
      match lineToPair (String.mk g) with
      | some kv => acc ++ [kv]
      | none => acc)
    []

/-- Reading a key from the assignment-list object: the last assignment
to the key wins. -/
def envLookup (e : List (String × String)) (k : String) : Option String :=
  (e.reverse.find? (fun kv => kv.1 == k)).map (fun kv => kv.2)

/-- Result of one `getShellEnvironment` call: the promise settlement,
the `cachedShellEnv` field afterwards, and whether a shell was
spawned at all. -/
structure ShellEnvResult where
  settle : EnvSettle
  cache : Option (List (String × String))
  spawned : Bool
deriving DecidableEq

/-- One `getShellEnvironment` call.  `cached` is `this.cachedShellEnv`
on entry, `procEnv` is `process.env`.  A cached snapshot is returned
without spawning; a clean close parses and caches; every failure
outcome resolves with `process.env` and leaves the cache untouched. -/
def getShellEnvironment (cached : Option (List (String × String)))
    (procEnv : List (String × String)) (outcome : ShellOutcome) : ShellEnvResult :=
  match cached with
  | some e => { settle := .resolvedEnv e, cache := some e, spawned := false }
  | none =>
    match outcome with
    | .closedZero out =>
      let e := parseEnvOutput out
      { settle := .resolvedEnv e, cache := some e, spawned := true }
    | .closedNonZero _ => { settle := .resolvedEnv procEnv, cache := none, spawned := true }
    | .spawnErrored _ => { settle := .resolvedEnv procEnv, cache := none, spawned := true }
    | .timedOut => { settle := .resolvedEnv procEnv, cache := none, spawned := true }

/-- A run of successive `getShellEnvironment` calls, threading the
`cachedShellEnv` field. -/
def runShellCalls (procEnv : List (String × String)) :
    Option (List (String × String)) → List ShellOutcome → List ShellEnvResult
  | _, [] => []
  | c, o :: os =>
    let r := getShellEnvironment c procEnv o
    r :: runShellCalls procEnv r.cache os

/-- `STARTUP_TIMEOUT = 60000` ms. -/
def STARTUP_TIMEOUT_MS : Nat := 60000

/-- The shell-environment capture timeout, `setTimeout(..., 5000)`. -/
def SHELL_ENV_TIMEOUT_MS : Nat := 5000

/-- The `killServer` grace period, `setTimeout(..., 3000)`. -/
def GRACE_PERIOD_MS : Nat := 3000

/-! ### `killProcessTree` (lines 282–319, POSIX branch)

The process table is abstracted to the pid list, the parent relation
(`pgrep -P pid` lists exactly the processes whose parent is `pid`), and
whether a process's full command line matches the `pkill -f
"vibe-kanban"` pattern. -/

/-- Abstract process table. -/
structure ProcTable where
  procs : List Nat
  parent : Nat → Option Nat
  cmdVibeKanban : Nat → Bool

/-- `pgrep -P pid`: the direct children of `pid`. -/
def directChildren (pt : ProcTable) (pid : Nat) : List Nat :=
  pt.procs.filter (fun q => pt.parent q == some pid)

/-- `pkill -f "vibe-kanban"`: every process whose command line matches
the pattern (pkill sends SIGTERM by default). -/
def pkillVibeMatches (pt : ProcTable) : List Nat :=
  pt.procs.filter pt.cmdVibeKanban

/-- The pids that one POSIX `killProcessTree(pid)` invocation sends
SIGTERM to: each direct child of `pid`, then the name-pattern sweep.
The root `pid` itself is never signalled on this branch. -/
def killProcessTreePosix (pt : ProcTable) (pid : Nat) : List Nat :=
  directChildren pt pid ++ pkillVibeMatches pt

/-- Actions of one non-immediate `killServer` call, in program order. -/
inductive KAction where
  | armGraceTimer (ms : Nat)
  | signalTree (pid : Nat)
  | timerCanceled
  | graceTimerFired
  | sweepTree (pid : Nat)
  | stateCleared
deriving DecidableEq

/-- The action sequence of `killServer` when a live process exists:
arm the 3 s timer, register the exit listener, send the graceful
`killProcessTree(pid)` immediately; then either the exit event (cancel
timer, sweep again, clear) or the grace timer (sweep, clear). -/
def killServerTrace (pid : Nat) : KillPath → List KAction
  | .exitBeforeGrace =>
    [.armGraceTimer GRACE_PERIOD_MS, .signalTree pid, .timerCanceled,
     .sweepTree pid, .stateCleared]
  | .graceTimeout =>
    [.armGraceTimer GRACE_PERIOD_MS, .signalTree pid, .graceTimerFired,
     .sweepTree pid, .stateCleared]

/-! ### Concrete scenarios used to evaluate the models -/

/-- A concrete file system: a proto installation of node `20.0.0` under
`/home/u`, with a stray non-version entry beside it. -/
def fsExample : FSView where
  pathExists := fun p =>
    p == "/home/u/.proto/tools/node"
      || p == "/home/u/.proto/tools/node/20.0.0/bin/node"
  readdir := fun p =>
    if p = "/home/u/.proto/tools/node" then ["20.0.0", "junk"] else []
  isDir := fun p =>
    p == "/home/u/.proto/tools/node/20.0.0"
      || p == "/home/u/.proto/tools/node/junk"

/-- A concrete process table: the supervised shell (pid 100) spawned a
package-runner child (pid 200) which forked a worker (pid 300); no
command line matches the `vibe-kanban` pattern. -/
def ptExample : ProcTable where
  procs := [100, 200, 300]
  parent := fun q =>
    if q = 300 then some 200 else if q = 200 then some 100 else none
  cmdVibeKanban := fun _ => false

end VK

namespace VK

/-! ### Helper lemmas about the data handlers -/

/-- A chunk whose scan matches while no URL is recorded: the handler
records the normalised URL, disarms the timer and calls `resolve`. -/
lemma scanChunk_match (st : SrvState) (chunk m : String)
    (hm : jsMatchUrl chunk = some m) (hu : st.serverUrl = none) :
    scanChunk st chunk =
      { st with serverUrl := some (normalizeUrl m)
                timeoutActive := false
                promise := settleResolve st.promise (normalizeUrl m)
                resolveCalls := st.resolveCalls + 1 } := by
  unfold scanChunk
  rw [hm]
  simp [hu]

/-- Once a URL is recorded, the scan body is a no-op. -/
lemma scanChunk_url_some (st : SrvState) (chunk u : String)
    (hu : st.serverUrl = some u) : scanChunk st chunk = st := by
  unfold scanChunk
  cases hm : jsMatchUrl chunk <;> simp [hu]

/-- A chunk with no match leaves the state unchanged. -/
lemma scanChunk_no_match (st : SrvState) (chunk : String)
    (hm : jsMatchUrl chunk = none) : scanChunk st chunk = st := by
  unfold scanChunk
  rw [hm]

/-- The state a `killServer` call leaves behind, in closed form: both
the handle and the address cleared, everything else untouched. -/
lemma killServer_state_eq (st : SrvState) (kp : KillPath) :
    (killServer st kp).state = { st with serverProcess := none, serverUrl := none } := by
  obtain ⟨sp, su, serr, spr, sta, src⟩ := st
  cases sp with
  | none => rfl
  | some p =>
    obtain ⟨pid, killed⟩ := p
    cases killed <;> cases kp <;> rfl

/-- With no process handle, `killServer` takes the immediate branch. -/
lemma killServer_immediate_of_none (st : SrvState) (kp : KillPath)
    (hp : st.serverProcess = none) : (killServer st kp).immediate = true := by
  obtain ⟨sp, su, serr, spr, sta, src⟩ := st
  cases hp
  rfl

/-- `isRunning` is false exactly on a cleared handle. -/
lemma isRunning_of_none (st : SrvState) (hp : st.serverProcess = none) :
    isRunning st = false := by
  unfold isRunning
  rw [hp]

/-- The startup-timeout handler with the timer armed, in closed form:
the `killServer` it triggers clears the handle and the address, and the
call rejects with the fixed timeout message. -/
lemma onTimeout_active (st : SrvState) (kp : KillPath) (ha : st.timeoutActive = true) :
    onTimeout st kp =
      { st with serverProcess := none, serverUrl := none
                promise := settleReject st.promise
                  "Server startup timeout. Please check your internet connection and try again."
                timeoutActive := false } := by
  obtain ⟨sp, su, serr, spr, sta, src⟩ := st
  cases ha
  cases sp with
  | none => rfl
  | some p =>
    obtain ⟨pid, killed⟩ := p
    cases killed <;> cases kp <;> rfl

/-- The outcome of every `killServer` call is a resolution. -/
lemma killServer_outcome_ok (st : SrvState) (kp : KillPath) :
    (killServer st kp).outcome = .resolvedOk := by
  obtain ⟨sp, su, serr, spr, sta, src⟩ := st
  cases sp with
  | none => rfl
  | some p =>
    obtain ⟨pid, killed⟩ := p
    cases killed <;> cases kp <;> rfl

lemma stInv_scanChunk (st : SrvState) (chunk : String) (h : StInv st) :
    StInv (scanChunk st chunk) := by
  obtain ⟨h1, h2, h3⟩ := h
  cases hm : jsMatchUrl chunk with
  | none => rw [scanChunk_no_match st chunk hm]; exact ⟨h1, h2, h3⟩
  | some m =>
    cases hu : st.serverUrl with
    | none =>
      rw [scanChunk_match st chunk m hm hu]
      refine ⟨?_, ?_, ?_⟩
      · intro hcontra; simp at hcontra
      · intro _; rfl
      · simp [h1 hu]
    | some u =>
      rw [scanChunk_url_some st chunk u hu]
      exact ⟨h1, h2, h3⟩

lemma stInv_step (st : SrvState) (e : Ev) (h : StInv st) : StInv (step st e) := by
  obtain ⟨h1, h2, h3⟩ := h
  cases e with
  | stdoutData c => exact stInv_scanChunk st c ⟨h1, h2, h3⟩
  | stderrData c =>
    exact stInv_scanChunk { st with stderrOutput := st.stderrOutput ++ c } c ⟨h1, h2, h3⟩
  | errorEvt m =>
    exact ⟨h1, fun _ => rfl, h3⟩
  | exitEvt c =>
    show StInv (onExit st c)
    unfold onExit
    cases hu : st.serverUrl with
    | none => exact ⟨fun _ => h1 hu, fun _ => rfl, h3⟩
    | some u => exact ⟨fun hcontra => by simp [hu] at hcontra, fun _ => by simp [hu] at h2 ⊢; exact h2, h3⟩
  | timeoutFired kp =>
    show StInv (onTimeout st kp)
    by_cases ha : st.timeoutActive = true
    · have hu : st.serverUrl = none := by
        cases hu : st.serverUrl with
        | none => rfl
        | some u => have := h2 (by simp [hu]); rw [ha] at this; cases this
      have hc0 : st.resolveCalls = 0 := h1 hu
      rw [onTimeout_active st kp ha]
      exact ⟨fun _ => hc0, fun hcontra => by simp at hcontra, h3⟩
    · unfold onTimeout
      rw [if_neg ha]
      exact ⟨h1, h2, h3⟩

lemma stInv_runEvs (evs : List Ev) (st : SrvState) (h : StInv st) :
    StInv (runEvs st evs) := by
  induction evs generalizing st with
  | nil => exact h
  | cons e es ih => exact ih (step st e) (stInv_step st e h)

lemma stInv_init (p : Proc) : StInv (initState p) := by
  refine ⟨fun _ => rfl, fun hcontra => ?_, Nat.zero_le 1⟩
  simp [initState, spawnState] at hcontra

/-- C1.  Readiness detection is first-match-wins with at most one
resolution: (i) over any callback sequence of a `startServer` call made
from `Idle`, `resolve` runs at most once; (ii) a matching chunk arriving
on either stream while no address is recorded records the normalised
match (wildcard `0.0.0.0` replaced by `localhost`), counts one `resolve`
call, and resolves a pending promise with that address; (iii) once an
address is recorded, further chunks on either stream change neither the
address, nor the promise, nor the `resolve` count; (iv) concretely,
`"Listening on http://0.0.0.0:3000\n"` resolves the call with
`http://localhost:3000` exactly once even though a second URL-shaped
line follows on the other stream. -/
theorem C1_readiness_first_match_resolves_once :
    (∀ (p : Proc) (evs : List Ev), (runEvs (initState p) evs).resolveCalls ≤ 1)
    ∧ (∀ (st : SrvState) (chunk m : String), jsMatchUrl chunk = some m → st.serverUrl = none →
        ((step st (.stdoutData chunk)).serverUrl = some (normalizeUrl m)
          ∧ (step st (.stdoutData chunk)).resolveCalls = st.resolveCalls + 1
          ∧ (st.promise = .pending →
              (step st (.stdoutData chunk)).promise = .resolvedWith (normalizeUrl m)))
        ∧ ((step st (.stderrData chunk)).serverUrl = some (normalizeUrl m)
          ∧ (step st (.stderrData chunk)).resolveCalls = st.resolveCalls + 1
          ∧ (st.promise = .pending →
              (step st (.stderrData chunk)).promise = .resolvedWith (normalizeUrl m))))
    ∧ (∀ (st : SrvState) (chunk u : String), st.serverUrl = some u →
        ((step st (.stdoutData chunk)).serverUrl = some u
          ∧ (step st (.stdoutData chunk)).promise = st.promise
          ∧ (step st (.stdoutData chunk)).resolveCalls = st.resolveCalls)
        ∧ ((step st (.stderrData chunk)).serverUrl = some u
          ∧ (step st (.stderrData chunk)).promise = st.promise
          ∧ (step st (.stderrData chunk)).resolveCalls = st.resolveCalls))
    ∧ (runEvs (initState ⟨1, false⟩)
        [.stdoutData "Listening on http://0.0.0.0:3000\n",
         .stderrData "Now listening at http://127.0.0.1:4000\n"]
        = { serverProcess := some ⟨1, false⟩
            serverUrl := some "http://localhost:3000"
            stderrOutput := "Now listening at http://127.0.0.1:4000\n"
            promise := .resolvedWith "http://localhost:3000"
            timeoutActive := false
            resolveCalls := 1 }) := by
  refine ⟨?_, ?_, ?_, ?_⟩
  · intro p evs
    exact (stInv_runEvs evs (initState p) (stInv_init p)).2.2
  · intro st chunk m hm hu
    constructor
    · show _ ∧ _ ∧ _
      rw [show step st (.stdoutData chunk) = scanChunk st chunk from rfl,
          scanChunk_match st chunk m hm hu]
      exact ⟨rfl, rfl, fun hp => by simp [hp, settleResolve]⟩
    · have hu2 : ({ st with stderrOutput := st.stderrOutput ++ chunk } : SrvState).serverUrl = none := hu
      rw [show step st (.stderrData chunk)
            = scanChunk { st with stderrOutput := st.stderrOutput ++ chunk } chunk from rfl,
          scanChunk_match _ chunk m hm hu2]
      exact ⟨rfl, rfl, fun hp => by simp [hp, settleResolve]⟩
  · intro st chunk u hu
    constructor
    · rw [show step st (.stdoutData chunk) = scanChunk st chunk from rfl,
          scanChunk_url_some st chunk u hu]
      exact ⟨hu, rfl, rfl⟩
    · have hu2 : ({ st with stderrOutput := st.stderrOutput ++ chunk } : SrvState).serverUrl = some u := hu
      rw [show step st (.stderrData chunk)
            = scanChunk { st with stderrOutput := st.stderrOutput ++ chunk } chunk from rfl,
          scanChunk_url_some _ chunk u hu2]
      exact ⟨hu, rfl, rfl⟩
  · rfl

/-- Witness for C1: instantiates the first-match clause at the concrete
chunk `"Listening on http://0.0.0.0:3000\n"` in the post-spawn state,
discharging both hypotheses there. -/
theorem C1_witness :
    (step (initState ⟨1, false⟩) (.stdoutData "Listening on http://0.0.0.0:3000\n")).serverUrl
      = some (normalizeUrl "http://0.0.0.0:3000")
    ∧ (step (initState ⟨1, false⟩) (.stdoutData "Listening on http://0.0.0.0:3000\n")).resolveCalls
      = (initState ⟨1, false⟩).resolveCalls + 1 :=
  ⟨(C1_readiness_first_match_resolves_once.2.1 (initState ⟨1, false⟩)
      "Listening on http://0.0.0.0:3000\n" "http://0.0.0.0:3000" (by decide) rfl).1.1,
   (C1_readiness_first_match_resolves_once.2.1 (initState ⟨1, false⟩)
      "Listening on http://0.0.0.0:3000\n" "http://0.0.0.0:3000" (by decide) rfl).1.2.1⟩

/-! ### C2: `killServer` idempotence -/

/-- Every `killServer` call clears both the handle and the recorded
address and resolves without error, whichever race outcome completes it. -/
lemma killServer_clears (st : SrvState) (kp : KillPath) :
    (killServer st kp).state.serverProcess = none
    ∧ (killServer st kp).state.serverUrl = none
    ∧ (killServer st kp).outcome = .resolvedOk := by
  rw [killServer_state_eq st kp]
  exact ⟨rfl, rfl, killServer_outcome_ok st kp⟩

/-- C2.  `killServer` never fails and is idempotent: the first call
resolves without error and leaves `isRunning() == false` with the
address cleared; a second call finds no active process, takes the
immediate branch, and again resolves without error leaving
`isRunning() == false` and no address. -/
theorem C2_killServer_idempotent :
    ∀ (st : SrvState) (kp1 kp2 : KillPath),
      (killServer st kp1).outcome = .resolvedOk
      ∧ isRunning (killServer st kp1).state = false
      ∧ (killServer st kp1).state.serverUrl = none
      ∧ (killServer (killServer st kp1).state kp2).immediate = true
      ∧ (killServer (killServer st kp1).state kp2).outcome = .resolvedOk
      ∧ isRunning (killServer (killServer st kp1).state kp2).state = false
      ∧ (killServer (killServer st kp1).state kp2).state.serverUrl = none := by
  intro st kp1 kp2
  obtain ⟨hp1, hu1, ho1⟩ := killServer_clears st kp1
  obtain ⟨hp2, hu2, ho2⟩ := killServer_clears (killServer st kp1).state kp2
  exact ⟨ho1, isRunning_of_none _ hp1, hu1,
         killServer_immediate_of_none _ kp2 hp1, ho2,
         isRunning_of_none _ hp2, hu2⟩

end VK

namespace VK

/-! ### C3: where failures leave the supervisor -/

/-- The exit handler before any readiness match, in closed form. -/
lemma onExit_no_url (st : SrvState) (code : Option Int) (hu : st.serverUrl = none) :
    onExit st code =
      { st with serverProcess := none
                timeoutActive := false
                promise := settleReject st.promise (earlyExitMessage code st.stderrOutput) } := by
  obtain ⟨sp, su, serr, spr, sta, src⟩ := st
  cases hu
  rfl

/-- The exit handler after readiness, in closed form: only the handle
is dropped. -/
lemma onExit_with_url (st : SrvState) (code : Option Int) (u : String)
    (hu : st.serverUrl = some u) :
    onExit st code = { st with serverProcess := none } := by
  obtain ⟨sp, su, serr, spr, sta, src⟩ := st
  cases hu
  rfl

/-- Counterexample to C3 as stated: a spawn `error` event (the
`SpawnFailure` path) rejects the call but does not clear
`serverProcess`, so the supervisor is left with `isRunning() == true` —
a leaked handle, not `Idle`. -/
theorem C3_counterexample :
    isRunning (step (initState ⟨7, false⟩) (.errorEvt "spawn ENOENT")) = true
    ∧ (step (initState ⟨7, false⟩) (.errorEvt "spawn ENOENT")).promise
        = .rejectedWith "Failed to start server: spawn ENOENT" :=
  ⟨rfl, rfl⟩

/-- C3 (amended).  A `PathsNotConfigured` failure happens before any
mutation and leaves the state untouched; a startup timeout (with its
triggered `killServer` completed) leaves `isRunning() == false` and
rejects with the `StartupTimeout` message; an early exit always clears
the handle, leaving `isRunning() == false`, and rejects when no
readiness match had arrived; the spawn `error` path, however, rejects
while leaving `serverProcess` untouched, so it alone does not
re-establish `Idle`. -/
theorem C3_failure_states_amended :
    (∀ (fsv : FSView) (homeDir : String) (npC xpC : Option String) (st : SrvState)
        (p : Proc) (e : String),
       (startAttempt fsv homeDir npC xpC st p).2 = some e →
         e = "PATHS_NOT_CONFIGURED" ∧ (startAttempt fsv homeDir npC xpC st p).1 = st)
    ∧ (∀ (st : SrvState) (kp : KillPath), st.timeoutActive = true →
        isRunning (onTimeout st kp) = false
        ∧ (st.promise = .pending →
            (onTimeout st kp).promise = .rejectedWith
              "Server startup timeout. Please check your internet connection and try again."))
    ∧ (∀ (st : SrvState) (code : Option Int),
        isRunning (onExit st code) = false
        ∧ (st.serverUrl = none → st.promise = .pending →
            (onExit st code).promise
              = .rejectedWith (earlyExitMessage code st.stderrOutput)))
    ∧ (∀ (st : SrvState) (m : String),
        (onError st m).serverProcess = st.serverProcess
        ∧ (st.promise = .pending →
            (onError st m).promise = .rejectedWith ("Failed to start server: " ++ m))) := by
  refine ⟨?_, ?_, ?_, ?_⟩
  · intro fsv homeDir npC xpC st p e hthrow
    cases hg : getPaths fsv homeDir npC xpC with
    | error msg =>
      have hmsg : msg = "PATHS_NOT_CONFIGURED" := by
        unfold getPaths at hg
        cases npC with
        | none => cases hg; rfl
        | some np =>
          cases xpC with
          | none => cases hg; rfl
          | some xp =>
            have hg2 : (if (np = "" || xp = "") = true then
                  (Except.error "PATHS_NOT_CONFIGURED" : Except String (String × String))
                else Except.ok (resolveProtoShim fsv homeDir np "node",
                       resolveProtoShim fsv homeDir xp "npx")) = Except.error msg := hg
            by_cases hemp : (np = "" || xp = "") = true
            · rw [if_pos hemp] at hg2
              injection hg2 with h
              exact h.symm
            · rw [if_neg hemp] at hg2
              exact Except.noConfusion hg2
      have hsa : startAttempt fsv homeDir npC xpC st p = (st, some msg) := by
        unfold startAttempt; rw [hg]
      rw [hsa] at hthrow ⊢
      have h2 : some msg = some e := hthrow
      injection h2 with h3
      subst h3
      exact ⟨hmsg, rfl⟩
    | ok pr =>
      have hsa : startAttempt fsv homeDir npC xpC st p = (spawnState st p, none) := by
        unfold startAttempt; rw [hg]
      rw [hsa] at hthrow
      exact Option.noConfusion hthrow
  · intro st kp ha
    rw [onTimeout_active st kp ha]
    exact ⟨rfl, fun hp => by rw [hp]; rfl⟩
  · intro st code
    constructor
    · cases hu : st.serverUrl with
      | none => rw [onExit_no_url st code hu]; rfl
      | some u => rw [onExit_with_url st code u hu]; rfl
    · intro hu hp
      rw [onExit_no_url st code hu, hp]
      rfl
  · intro st m
    exact ⟨rfl, fun hp => by show settleReject st.promise _ = _; rw [hp]; rfl⟩

/-- Witness for the amended C3: the timeout clause at the freshly
spawned state (timer armed), with its hypothesis discharged there. -/
theorem C3_witness :
    isRunning (onTimeout (initState ⟨3, false⟩) .graceTimeout) = false
    ∧ ((initState ⟨3, false⟩).promise = .pending →
        (onTimeout (initState ⟨3, false⟩) .graceTimeout).promise = .rejectedWith
          "Server startup timeout. Please check your internet connection and try again.") :=
  C3_failure_states_amended.2.1 (initState ⟨3, false⟩) .graceTimeout rfl

/-! ### C9: `getUrl` and what clears the recorded address -/

/-- Counterexample to C9 as stated: from the `Ready` state, a
self-initiated process exit clears only the handle; `getUrl` still
returns the stale address instead of absent. -/
theorem C9_counterexample :
    getUrl (step
      { serverProcess := some ⟨5, false⟩
        serverUrl := some "http://localhost:3000"
        stderrOutput := ""
        promise := .resolvedWith "http://localhost:3000"
        timeoutActive := false
        resolveCalls := 1 }
      (.exitEvt (some 0))) = some "http://localhost:3000" :=
  rfl

/-- C9 (amended).  `getUrl` returns the last recorded address, or
absent when none was recorded; `killServer` clears it on every path;
but the self-exit handler clears only the process handle and leaves the
recorded address in place until the next `killServer`. -/
theorem C9_getUrl_amended :
    ∀ (st : SrvState),
      getUrl st = st.serverUrl
      ∧ (∀ kp : KillPath, getUrl (killServer st kp).state = none)
      ∧ (∀ code : Option Int,
          getUrl (onExit st code) = getUrl st
          ∧ (onExit st code).serverProcess = none) := by
  intro st
  refine ⟨rfl, ?_, ?_⟩
  · intro kp
    show (killServer st kp).state.serverUrl = none
    rw [killServer_state_eq st kp]
  · intro code
    constructor
    · cases hu : st.serverUrl with
      | none => rw [onExit_no_url st code hu]; show _ = st.serverUrl; rw [hu]; rfl
      | some u => rw [onExit_with_url st code u hu]; rfl
    · cases hu : st.serverUrl with
      | none => rw [onExit_no_url st code hu]
      | some u => rw [onExit_with_url st code u hu]

/-! ### C10: early-exit error classification -/

/-- C10.  When the process exits before any readiness match: an
address-in-use signature in the captured stderr rejects with the
port-conflict message; failing that, a not-found/ENOENT signature
rejects with the tool-not-found message; and with neither signature the
generic message carries the exit code plus the captured stderr
truncated to 500 units. -/
theorem C10_early_exit_classification :
    ∀ (st : SrvState) (code : Option Int), st.serverUrl = none → st.promise = .pending →
      ((strHasSub st.stderrOutput "AddrInUse"
          || strHasSub st.stderrOutput "Address already in use") = true →
        (step st (.exitEvt code)).promise = .rejectedWith
          "Port is already in use.\n\nAnother instance of vibe-kanban may be running.\nPlease close it and try again.")
      ∧ ((strHasSub st.stderrOutput "AddrInUse"
          || strHasSub st.stderrOutput "Address already in use") = false →
         (strHasSub st.stderrOutput "ENOENT"
          || strHasSub st.stderrOutput "not found") = true →
        (step st (.exitEvt code)).promise = .rejectedWith
          "Failed to find vibe-kanban.\n\nPlease ensure you have internet access.")
      ∧ ((strHasSub st.stderrOutput "AddrInUse"
          || strHasSub st.stderrOutput "Address already in use") = false →
         (strHasSub st.stderrOutput "ENOENT"
          || strHasSub st.stderrOutput "not found") = false →
         st.stderrOutput ≠ "" →
        (step st (.exitEvt code)).promise = .rejectedWith
          ("Server exited with code " ++ renderCode code ++ " before becoming ready"
            ++ "\n\nError output:\n" ++ strTake st.stderrOutput 500)) := by
  intro st code hu hp
  have hstep : (step st (.exitEvt code)).promise
      = .rejectedWith (earlyExitMessage code st.stderrOutput) := by
    show (onExit st code).promise = _
    rw [onExit_no_url st code hu, hp]
    rfl
  refine ⟨?_, ?_, ?_⟩
  · intro haddr
    rw [hstep]
    unfold earlyExitMessage
    rw [haddr]
    rfl
  · intro haddr hnf
    rw [hstep]
    unfold earlyExitMessage
    rw [haddr, hnf]
    rfl
  · intro haddr hnf hne
    rw [hstep]
    unfold earlyExitMessage
    rw [haddr, hnf]
    simp only [Bool.false_eq_true, if_false]
    rw [if_pos hne]

/-- Witness for C10: a concrete pre-exit state whose captured stderr
contains `"Address already in use"`, with all hypotheses discharged. -/
theorem C10_witness :
    (step
      { serverProcess := some ⟨9, false⟩
        serverUrl := none
        stderrOutput := "Error: Address already in use (os error 98)"
        promise := .pending
        timeoutActive := true
        resolveCalls := 0 }
      (.exitEvt (some 1))).promise = .rejectedWith
        "Port is already in use.\n\nAnother instance of vibe-kanban may be running.\nPlease close it and try again." :=
  (C10_early_exit_classification
    { serverProcess := some ⟨9, false⟩
      serverUrl := none
      stderrOutput := "Error: Address already in use (os error 98)"
      promise := .pending
      timeoutActive := true
      resolveCalls := 0 }
    (some 1) rfl rfl).1 (by decide)

end VK

namespace VK

/-! ### C4/C5: shim resolution and version ordering -/

/-- C4.  `resolveProtoShim` never raises (it is a total function) and
degrades gracefully: a path outside the shim directory is returned
unchanged; a missing tool directory, an empty version list, or a
missing candidate binary each return the original path unchanged; and
when the versioned candidate exists it is returned. -/
theorem C4_resolveShim_graceful :
    ∀ (fsv : FSView) (homeDir shimPath binaryName : String),
      (strHasSub shimPath ".proto/shims" = false →
        resolveProtoShim fsv homeDir shimPath binaryName = shimPath)
      ∧ (fsv.pathExists (protoToolsDirOf homeDir binaryName) = false →
        resolveProtoShim fsv homeDir shimPath binaryName = shimPath)
      ∧ ((protoVersions fsv homeDir binaryName).isEmpty = true →
        resolveProtoShim fsv homeDir shimPath binaryName = shimPath)
      ∧ (fsv.pathExists (protoCandidate fsv homeDir binaryName) = false →
        resolveProtoShim fsv homeDir shimPath binaryName = shimPath)
      ∧ (strHasSub shimPath ".proto/shims" = true →
         fsv.pathExists (protoToolsDirOf homeDir binaryName) = true →
         (protoVersions fsv homeDir binaryName).isEmpty = false →
         fsv.pathExists (protoCandidate fsv homeDir binaryName) = true →
        resolveProtoShim fsv homeDir shimPath binaryName
          = protoCandidate fsv homeDir binaryName) := by
  intro fsv homeDir shimPath binaryName
  refine ⟨?_, ?_, ?_, ?_, ?_⟩
  · intro h1
    simp [resolveProtoShim, h1]
  · intro h2
    cases hc1 : strHasSub shimPath ".proto/shims" <;>
      simp [resolveProtoShim, hc1, h2]
  · intro h3
    cases hc1 : strHasSub shimPath ".proto/shims" <;>
      cases hc2 : fsv.pathExists (protoToolsDirOf homeDir binaryName) <;>
        simp [resolveProtoShim, hc1, hc2, h3]
  · intro h4
    cases hc1 : strHasSub shimPath ".proto/shims" <;>
      cases hc2 : fsv.pathExists (protoToolsDirOf homeDir binaryName) <;>
        cases hc3 : (protoVersions fsv homeDir binaryName).isEmpty <;>
          simp [resolveProtoShim, hc1, hc2, hc3, h4]
  · intro h1 h2 h3 h4
    simp [resolveProtoShim, h1, h2, h3, h4]

/-- Witness for C4: the resolved-candidate clause on the concrete
proto installation, all four hypotheses discharged there. -/
theorem C4_witness :
    resolveProtoShim fsExample "/home/u" "/home/u/.proto/shims/node" "node"
      = protoCandidate fsExample "/home/u" "node" :=
  (C4_resolveShim_graceful fsExample "/home/u" "/home/u/.proto/shims/node"
    "node").2.2.2.2 (by decide) (by decide) (by decide) (by decide)

/-- C5.  The version comparator orders `2.0.0-beta` before `1.10.0`
before `1.2.0` (descending component-wise numeric comparison with the
non-numeric suffix contributing nothing beyond its numeric prefix and
missing components read as 0), every arrival order of the three
directories sorts to the same descending list, and the selected
`versions[0]` is `2.0.0-beta`. -/
theorem C5_version_sort_descending :
    versionParts "2.0.0-beta" = [2, 0, 0]
    ∧ versionParts "1.10.0" = [1, 10, 0]
    ∧ cmpVersions "2.0.0-beta" "1.10.0" < 0
    ∧ cmpVersions "1.10.0" "1.2.0" < 0
    ∧ cmpVersions "2.0.0-beta" "1.2.0" < 0
    ∧ sortVersionsDesc ["1.2.0", "1.10.0", "2.0.0-beta"] = ["2.0.0-beta", "1.10.0", "1.2.0"]
    ∧ sortVersionsDesc ["1.2.0", "2.0.0-beta", "1.10.0"] = ["2.0.0-beta", "1.10.0", "1.2.0"]
    ∧ sortVersionsDesc ["1.10.0", "1.2.0", "2.0.0-beta"] = ["2.0.0-beta", "1.10.0", "1.2.0"]
    ∧ sortVersionsDesc ["1.10.0", "2.0.0-beta", "1.2.0"] = ["2.0.0-beta", "1.10.0", "1.2.0"]
    ∧ sortVersionsDesc ["2.0.0-beta", "1.2.0", "1.10.0"] = ["2.0.0-beta", "1.10.0", "1.2.0"]
    ∧ sortVersionsDesc ["2.0.0-beta", "1.10.0", "1.2.0"] = ["2.0.0-beta", "1.10.0", "1.2.0"]
    ∧ (sortVersionsDesc ["1.2.0", "1.10.0", "2.0.0-beta"]).headD "" = "2.0.0-beta" := by
  decide

/-! ### C6: the spawn environment -/

/-- Counterexample to C6 as stated: with the configured paths resolving
through a detected proto shim and the caller requesting port `0`, the
constructed environment has no `PORT` entry (the spread guard tests JS
truthiness, and `0` is falsy), no variable carrying the version
manager's home directory (the environment differs from the shell
snapshot only at `PATH`, `BROWSER`, `PORT`), and a `PATH` that starts
with the resolved version `bin` directory, not the manager's shim
directory. -/
theorem C6_counterexample :
    (startServerEnv fsExample "/home/u" (some "/home/u/.proto/shims/node")
        (some "/home/u/.proto/shims/npx") (fun _ => none) (some 0)).map
      (fun e => e "PORT") = some none
    ∧ (startServerEnv fsExample "/home/u" (some "/home/u/.proto/shims/node")
        (some "/home/u/.proto/shims/npx") (fun _ => none) (some 0)).map
      (fun e => e "PROTO_HOME") = some none
    ∧ (startServerEnv fsExample "/home/u" (some "/home/u/.proto/shims/node")
        (some "/home/u/.proto/shims/npx") (fun _ => none) (some 0)).map
      (fun e => (e "PATH").map (fun v => strHasSub v ".proto/shims"))
      = some (some false)
    ∧ (startServerEnv fsExample "/home/u" (some "/home/u/.proto/shims/node")
        (some "/home/u/.proto/shims/npx") (fun _ => none) (some 0)).map
      (fun e => e "PATH")
      = some (some "/home/u/.proto/tools/node/20.0.0/bin:/usr/local/bin:/usr/bin:/bin") :=
  ⟨rfl, rfl, rfl, rfl⟩

/-- C6 (amended).  The spawn environment always sets `BROWSER=none`;
it carries an explicit `PORT` override exactly when the caller passed a
non-zero port (a requested port `0` is falsy and injects nothing, and
with no override `PORT` is whatever the shell snapshot had); `PATH` is
the resolved node binary's directory prepended to the shell `PATH` (or
the fixed fallback search path); every other variable comes unchanged
from the shell snapshot — in particular no version-manager home
variable is added and no shim directory is prepended. -/
theorem C6_env_amended :
    ∀ (shellEnv : EnvF) (nodeDir : String) (port : Option Nat),
      buildEnv shellEnv nodeDir port "BROWSER" = some "none"
      ∧ (∀ p : Nat, port = some p → p ≠ 0 →
          buildEnv shellEnv nodeDir port "PORT" = some (toString p))
      ∧ (port = none → buildEnv shellEnv nodeDir port "PORT" = shellEnv "PORT")
      ∧ (port = some 0 → buildEnv shellEnv nodeDir port "PORT" = shellEnv "PORT")
      ∧ buildEnv shellEnv nodeDir port "PATH"
          = some (nodeDir ++ ":" ++ shellPathOrDefault (shellEnv "PATH"))
      ∧ (∀ k, k ≠ "PATH" → k ≠ "BROWSER" → k ≠ "PORT" →
          buildEnv shellEnv nodeDir port k = shellEnv k)
      ∧ (∀ (fsv : FSView) (homeDir : String) (npC xpC : Option String) (np xp : String),
          getPaths fsv homeDir npC xpC = .ok (np, xp) →
          startServerEnv fsv homeDir npC xpC shellEnv port
            = some (buildEnv shellEnv (strDirname np) port)) := by
  intro shellEnv nodeDir port
  refine ⟨rfl, ?_, ?_, ?_, rfl, ?_, ?_⟩
  · intro p hport hp
    subst hport
    show (if p ≠ 0 then some (toString p) else shellEnv "PORT") = some (toString p)
    rw [if_pos hp]
  · intro hport
    subst hport
    rfl
  · intro hport
    subst hport
    show (if (0 : Nat) ≠ 0 then some (toString (0 : Nat)) else shellEnv "PORT")
      = shellEnv "PORT"
    rw [if_neg (fun h => h rfl)]
  · intro k h1 h2 h3
    show (if k = "PATH" then _ else if k = "BROWSER" then _
          else if k = "PORT" then _ else shellEnv k) = shellEnv k
    rw [if_neg h1, if_neg h2, if_neg h3]
  · intro fsv homeDir npC xpC np xp hok
    unfold startServerEnv
    rw [hok]

/-- Witness for the amended C6: a requested port `3000` yields an
explicit `PORT` entry, with the hypotheses discharged concretely. -/
theorem C6_witness :
    buildEnv (fun _ => none) "/usr/local/node/bin" (some 3000) "PORT"
      = some (toString (3000 : Nat)) :=
  (C6_env_amended (fun _ => none) "/usr/local/node/bin" (some 3000)).2.1
    3000 rfl (by decide)

end VK

namespace VK

/-! ### C7: what `killProcessTree` actually signals -/

/-- Counterexample to C7 as stated: for the concrete process table in
which pid 200 is the direct child of the captured root 100 and pid 300
is 200's child (a descendant of 100), the POSIX graceful pass signals
only `[200]` — neither the root process 100 itself nor the grandchild
300 receives the termination signal. -/
theorem C7_counterexample :
    ptExample.parent 200 = some 100
    ∧ ptExample.parent 300 = some 200
    ∧ 100 ∈ ptExample.procs
    ∧ 300 ∈ ptExample.procs
    ∧ killProcessTreePosix ptExample 100 = [200]
    ∧ ¬ 100 ∈ killProcessTreePosix ptExample 100
    ∧ ¬ 300 ∈ killProcessTreePosix ptExample 100 := by
  decide

/-- C7 (amended).  On POSIX, `killServer` captures the pid and its
graceful pass signals exactly the direct children of that pid
(`pgrep -P`) plus every process whose command line matches the
`vibe-kanban` pattern (`pkill -f`) — the root pid itself is not
signalled and descendants are reached only through those two filters.
The signal is sent synchronously when `killServer` runs, strictly
before the grace-period timer (3000 ms, within the stated 3–5 s
window) can fire and trigger the forceful sweep. -/
theorem C7_killtree_amended :
    ∀ (pt : ProcTable) (pid q : Nat),
      (q ∈ killProcessTreePosix pt pid ↔
        q ∈ pt.procs ∧ (pt.parent q = some pid ∨ pt.cmdVibeKanban q = true))
      ∧ (∀ kp : KillPath, (killServerTrace pid kp).take 2
          = [.armGraceTimer GRACE_PERIOD_MS, .signalTree pid])
      ∧ (∀ kp : KillPath, KAction.graceTimerFired ∉ (killServerTrace pid kp).take 2)
      ∧ GRACE_PERIOD_MS = 3000 ∧ 3000 ≤ GRACE_PERIOD_MS ∧ GRACE_PERIOD_MS ≤ 5000 := by
  intro pt pid q
  refine ⟨?_, ?_, ?_, rfl, by decide, by decide⟩
  · unfold killProcessTreePosix directChildren pkillVibeMatches
    simp only [List.mem_append, List.mem_filter, beq_iff_eq]
    tauto
  · intro kp
    cases kp <;> rfl
  · intro kp
    cases kp <;> simp [killServerTrace]

/-! ### C8: shell-environment capture -/

/-- Once a snapshot is cached, every later call returns it unchanged
without spawning, whatever the shell would have done. -/
lemma runShellCalls_cached (procEnv e : List (String × String))
    (outs : List ShellOutcome) :
    runShellCalls procEnv (some e) outs
      = outs.map (fun _ =>
          ({ settle := .resolvedEnv e, cache := some e, spawned := false } : ShellEnvResult)) := by
  induction outs with
  | nil => rfl
  | cons o os ih =>
    show ({ settle := .resolvedEnv e, cache := some e, spawned := false } : ShellEnvResult)
        :: runShellCalls procEnv (some e) os = _
    rw [ih]
    rfl

/-- C8.  `getShellEnvironment` never rejects: every call resolves with
some environment.  A cached snapshot is returned as-is without spawning
a shell; a clean close parses the `KEY=VALUE` lines of the dump and
caches the result; a non-zero exit, a spawn error, and the 5-second
timeout each silently resolve with the supervisor's own environment and
cache nothing.  After a successful capture, every subsequent call for
the remainder of the run returns the identical snapshot without
spawning, whatever the shell would have done. -/
theorem C8_shell_env_capture :
    (∀ (cached : Option (List (String × String))) (procEnv : List (String × String))
        (outcome : ShellOutcome),
      ∃ e, (getShellEnvironment cached procEnv outcome).settle = .resolvedEnv e)
    ∧ (∀ e procEnv outcome, getShellEnvironment (some e) procEnv outcome
        = { settle := .resolvedEnv e, cache := some e, spawned := false })
    ∧ (∀ procEnv out, getShellEnvironment none procEnv (.closedZero out)
        = { settle := .resolvedEnv (parseEnvOutput out)
            cache := some (parseEnvOutput out), spawned := true })
    ∧ (∀ procEnv code, getShellEnvironment none procEnv (.closedNonZero code)
        = { settle := .resolvedEnv procEnv, cache := none, spawned := true })
    ∧ (∀ procEnv msg, getShellEnvironment none procEnv (.spawnErrored msg)
        = { settle := .resolvedEnv procEnv, cache := none, spawned := true })
    ∧ (∀ procEnv, getShellEnvironment none procEnv .timedOut
        = { settle := .resolvedEnv procEnv, cache := none, spawned := true })
    ∧ (∀ procEnv out outs,
        runShellCalls procEnv none (.closedZero out :: outs)
          = { settle := .resolvedEnv (parseEnvOutput out)
              cache := some (parseEnvOutput out), spawned := true }
            :: outs.map (fun _ =>
                { settle := .resolvedEnv (parseEnvOutput out)
                  cache := some (parseEnvOutput out), spawned := false }))
    ∧ parseEnvOutput "PATH=/usr/bin\nEDITOR=vim\nnoequalsline\n=bad\n"
        = [("PATH", "/usr/bin"), ("EDITOR", "vim")]
    ∧ SHELL_ENV_TIMEOUT_MS = 5000 := by
  refine ⟨?_, fun e procEnv outcome => rfl, fun procEnv out => rfl,
          fun procEnv code => rfl, fun procEnv msg => rfl, fun procEnv => rfl,
          ?_, by decide, rfl⟩
  · intro cached procEnv outcome
    cases cached with
    | some e => exact ⟨e, rfl⟩
    | none =>
      cases outcome with
      | closedZero out => exact ⟨parseEnvOutput out, rfl⟩
      | closedNonZero code => exact ⟨procEnv, rfl⟩
      | spawnErrored msg => exact ⟨procEnv, rfl⟩
      | timedOut => exact ⟨procEnv, rfl⟩
  · intro procEnv out outs
    show ({ settle := .resolvedEnv (parseEnvOutput out)
            cache := some (parseEnvOutput out), spawned := true } : ShellEnvResult)
        :: runShellCalls procEnv (some (parseEnvOutput out)) outs = _
    rw [runShellCalls_cached]

end VK
